import Mathlib

/-!
Shallow embedding of the rockboards-api core pipeline:

* `postFillMetrics` and its helpers (`src/types/index.ts`): the series
  filler turning sparse disclosure rows plus daily stock prices into a
  dense list of derived daily metrics.
* `calculateCurrentNAV` (`src/types/index.ts`): the NAV / mNAV computation
  over the latest derived metric and live prices.
* `checkAlertCondition`, `checkCooldownPeriod`, `checkMnavThresholds`
  (`src/routes/mnav-monitor.ts`) and `MnavMonitorService.shouldTriggerAlert`,
  `MnavMonitorService.calculateCurrentMnav`, `MnavMonitorService.recordTriggeredAlert`
  (`src/services/finnhub-websocket.ts`): the alert monitor.

Modelling conventions:

* Calendar dates are modelled as natural-number day indices.  In the source
  every date is normalized to UTC midnight (`normalizeDate`) before any
  comparison, and all comparisons are ISO-string comparisons, which order
  exactly like the day indices; `normalizeDate` is therefore the identity
  here.  Millisecond timestamps in the alert monitor are modelled as `Int`.
* JavaScript numbers are modelled as `JsNum`: either a finite rational or
  one of the non-finite values `Infinity`, `-Infinity`, `NaN`.  Fields that
  the source can never make non-finite are plain `ℚ`.  Signed zero is not
  modelled (no input of the embedded code distinguishes `0` from `-0`).
* JavaScript truthiness on an optional number (`if (x)`) is `truthy`:
  present and non-zero (and, for `JsNum`, not `NaN`).
* Database reads/writes and HTTP are external collaborators; the embedded
  functions take their results as arguments.  Write failures are modelled
  by explicit `Bool` success flags.
-/

namespace Rockboards

/-- A JavaScript number: a finite rational, `Infinity`, `-Infinity` or `NaN`. -/
inductive JsNum where
  | fin (q : ℚ)
  | inf
  | negInf
  | nan
  deriving DecidableEq, Repr

namespace JsNum

/-- JS truthiness of a number: `0` and `NaN` are falsy, everything else truthy. -/
def truthy : JsNum → Bool
  | fin q => q ≠ 0
  | inf => true
  | negInf => true
  | nan => false

/-- JS multiplication on `JsNum`. -/
def mul : JsNum → JsNum → JsNum
  | nan, _ => nan
  | _, nan => nan
  | fin a, fin b => fin (a * b)
  | fin a, inf => if 0 < a then inf else if a < 0 then negInf else nan
  | fin a, negInf => if 0 < a then negInf else if a < 0 then inf else nan
  | inf, fin b => if 0 < b then inf else if b < 0 then negInf else nan
  | negInf, fin b => if 0 < b then negInf else if b < 0 then inf else nan
  | inf, inf => inf
  | inf, negInf => negInf
  | negInf, inf => negInf
  | negInf, negInf => inf

/-- JS subtraction on `JsNum`. -/
def sub : JsNum → JsNum → JsNum
  | nan, _ => nan
  | _, nan => nan
  | fin a, fin b => fin (a - b)
  | fin _, inf => negInf
  | fin _, negInf => inf
  | inf, fin _ => inf
  | negInf, fin _ => negInf
  | inf, inf => nan
  | inf, negInf => inf
  | negInf, inf => negInf
  | negInf, negInf => nan

end JsNum

/-- JS division of two finite numbers: division by zero produces
`Infinity` / `-Infinity` / `NaN` according to the sign of the numerator. -/
def jsDivQ (a b : ℚ) : JsNum :=
  if b ≠ 0 then .fin (a / b)
  else if 0 < a then .inf
  else if a < 0 then .negInf
  else .nan

/-- JS division on `JsNum`. -/
def jsDivN : JsNum → JsNum → JsNum
  | .nan, _ => .nan
  | _, .nan => .nan
  | .fin a, .fin b => jsDivQ a b
  | .fin _, .inf => .fin 0
  | .fin _, .negInf => .fin 0
  | .inf, .fin b => if 0 ≤ b then .inf else .negInf
  | .negInf, .fin b => if 0 ≤ b then .negInf else .inf
  | .inf, .inf => .nan
  | .inf, .negInf => .nan
  | .negInf, .inf => .nan
  | .negInf, .negInf => .nan

/-- JS truthiness of an optional number (`undefined` and `0` are falsy). -/
def truthyQ : Option ℚ → Bool
  | none => false
  | some q => q ≠ 0

/-- `x || 0` on an optional JS number. -/
def jsOrZero (o : Option ℚ) : ℚ :=
  if truthyQ o then o.getD 0 else 0

/-- A raw disclosure row (`CompanyMetrics` in `src/types/index.ts`): every
metric field may be absent on any given date.  `company_id` is a string; the
source treats an empty string like a missing id (truthiness). -/
structure CompanyMetrics where
  company_id : String
  date : Nat
  eth_holdings : Option ℚ := none
  avg_buy_price : Option ℚ := none
  usd_holdings : Option ℚ := none
  staking_rewards : Option ℚ := none
  shares_outstanding : Option ℚ := none
  eth_concentration : Option ℚ := none
  notes : Option String := none
  deriving DecidableEq, Repr

/-- A raw daily stock price row (`StockPrice` in `src/types/index.ts`). -/
structure StockPrice where
  company_id : String := ""
  date : Nat
  close : Option ℚ := none
  deriving DecidableEq, Repr

/-- A derived daily metric row (`CompanyMetric` in `src/types/index.ts`).
`sharesOutstanding`, `marketCap`, `issuedAtmShares` and `sharesBoughtBack`
are `JsNum` because the derivation divides by a possibly-zero concentration. -/
structure CompanyMetric where
  companyId : String
  date : Nat
  weightedAvgBuyPrice : ℚ
  ethHoldings : ℚ
  avgBuyPrice : ℚ
  usdHoldings : ℚ
  stakingRewards : ℚ
  sharesOutstanding : JsNum
  marketCap : JsNum
  ethConcentration : ℚ
  issuedAtmShares : JsNum
  notes : String
  sharesBoughtBack : JsNum
  deriving DecidableEq, Repr

/-- Among the disclosures strictly before `date` whose field `f` is truthy,
the one with the greatest date (first in input order on ties — the source
stable-sorts descending by date and takes element 0). -/
def latestTruthyBefore (metrics : List CompanyMetrics) (date : Nat)
    (f : CompanyMetrics → Option ℚ) : Option CompanyMetrics :=
  (metrics.filter (fun m => decide (m.date < date) && truthyQ (f m))).foldl
    (fun acc m =>
      match acc with
      | none => some m
      | some b => if b.date < m.date then some m else some b)
    none

/-- `getLastKnownEthHoldings`: today's value if truthy, else the most recent
earlier truthy value. -/
def getLastKnownEthHoldings (metrics : List CompanyMetrics) (date : Nat) :
    Option ℚ :=
  let currentVal := (metrics.find? (fun m => m.date = date)).bind
    (·.eth_holdings)
  if truthyQ currentVal then currentVal
  else (latestTruthyBefore metrics date (·.eth_holdings)).bind (·.eth_holdings)

/-- `usdHoldingsExist`: present (not `undefined` / `null`); `0` counts as present. -/
def usdHoldingsExist : Option ℚ → Bool
  | none => false
  | some _ => true

/-- Among the disclosures strictly before `date` whose `usd_holdings` is
present (even `0`), the one with the greatest date. -/
def latestUsdBefore (metrics : List CompanyMetrics) (date : Nat) :
    Option CompanyMetrics :=
  (metrics.filter
      (fun m => decide (m.date < date) && usdHoldingsExist m.usd_holdings)).foldl
    (fun acc m =>
      match acc with
      | none => some m
      | some b => if b.date < m.date then some m else some b)
    none

/-- `getLastKnownUsdHoldings`: today's value if present (presence check, not
truthiness — `0` is a value), else the most recent earlier present value,
else `0`; the result is scaled by `1_000_000` (disclosed in millions). -/
def getLastKnownUsdHoldings (metrics : List CompanyMetrics) (date : Nat) : ℚ :=
  let currentUsdHoldings := (metrics.find? (fun m => m.date = date)).bind
    (·.usd_holdings)
  if usdHoldingsExist currentUsdHoldings then
    (currentUsdHoldings.getD 0) * 1000000
  else
    (((latestUsdBefore metrics date).bind (·.usd_holdings)).getD 0) * 1000000

/-- `getLastKnownAvgBuyPrice`: same truthiness-based forward fill as holdings. -/
def getLastKnownAvgBuyPrice (metrics : List CompanyMetrics) (date : Nat) :
    Option ℚ :=
  let currentVal := (metrics.find? (fun m => m.date = date)).bind
    (·.avg_buy_price)
  if truthyQ currentVal then currentVal
  else (latestTruthyBefore metrics date (·.avg_buy_price)).bind (·.avg_buy_price)

/-- `getLastKnownStakingRewards`: same truthiness-based forward fill. -/
def getLastKnownStakingRewards (metrics : List CompanyMetrics) (date : Nat) :
    Option ℚ :=
  let currentVal := (metrics.find? (fun m => m.date = date)).bind
    (·.staking_rewards)
  if truthyQ currentVal then currentVal
  else (latestTruthyBefore metrics date (·.staking_rewards)).bind
    (·.staking_rewards)

/-- `getLastKnownEthConcentration`: same truthiness-based forward fill. -/
def getLastKnownEthConcentration (metrics : List CompanyMetrics) (date : Nat) :
    Option ℚ :=
  let currentVal := (metrics.find? (fun m => m.date = date)).bind
    (·.eth_concentration)
  if truthyQ currentVal then currentVal
  else (latestTruthyBefore metrics date (·.eth_concentration)).bind
    (·.eth_concentration)

/-- Among the already-emitted rows strictly before `date` whose field `f` is
truthy, the one with the greatest date. -/
def latestRowBefore (rows : List CompanyMetric) (date : Nat)
    (f : CompanyMetric → JsNum) : Option CompanyMetric :=
  (rows.filter (fun m => decide (m.date < date) && (f m).truthy)).foldl
    (fun acc m =>
      match acc with
      | none => some m
      | some b => if b.date < m.date then some m else some b)
    none

/-- `getLastKnownSharesOutstanding`: most recent previous emitted row's
truthy `sharesOutstanding`. -/
def getLastKnownSharesOutstanding (rows : List CompanyMetric) (date : Nat) :
    Option JsNum :=
  (latestRowBefore rows date (·.sharesOutstanding)).map (·.sharesOutstanding)

/-- `getLastKnownSharesBoughtBack`: most recent previous emitted row's
truthy `sharesBoughtBack`. -/
def getLastKnownSharesBoughtBack (rows : List CompanyMetric) (date : Nat) :
    Option JsNum :=
  (latestRowBefore rows date (·.sharesBoughtBack)).map (·.sharesBoughtBack)

/-- Whether any disclosure on or before `date` carries at least one metric
field (presence check: a disclosed value of `0` counts here). -/
def hasAnyMetricData (metrics : List CompanyMetrics) (date : Nat) : Bool :=
  metrics.any (fun m =>
    decide (m.date ≤ date) &&
    (m.eth_holdings.isSome || m.eth_concentration.isSome ||
      m.avg_buy_price.isSome || m.usd_holdings.isSome ||
      m.staking_rewards.isSome))

/-- `originalMetric?.company_id || normalizedMetrics[0]?.company_id`:
the day's disclosure's company id if non-empty, else the first
disclosure's id, else the empty string (treated as missing). -/
def resolveCompanyId (metrics : List CompanyMetrics) (date : Nat) : String :=
  let fromDay := ((metrics.find? (fun m => m.date = date)).map
    (·.company_id)).getD ""
  if fromDay ≠ "" then fromDay
  else ((metrics.head?).map (·.company_id)).getD ""

/-- Builds the emitted row for one day, given the already-emitted rows, the
resolved last known stock price and the resolved company id.  Field for
field this is the object literal pushed by `postFillMetrics`. -/
def mkRow (normalizedMetrics : List CompanyMetrics) (acc : List CompanyMetric)
    (lastKnownStockPrice : ℚ) (companyId : String) (date : Nat) :
    CompanyMetric :=
  let lastKnownEthHoldings := getLastKnownEthHoldings normalizedMetrics date
  let lastKnownUsdHoldings := getLastKnownUsdHoldings normalizedMetrics date
  let lastKnownAvgBuyPrice := getLastKnownAvgBuyPrice normalizedMetrics date
  let lastKnownStakingRewards :=
    getLastKnownStakingRewards normalizedMetrics date
  let lastKnownEthConcentration :=
    getLastKnownEthConcentration normalizedMetrics date
  let ethConcentration := jsOrZero lastKnownEthConcentration
  let ethHoldings := jsOrZero lastKnownEthHoldings
  let sharesOutstanding := jsDivQ ethHoldings (ethConcentration / 1000)
  let lastKnownSharesOutstanding := getLastKnownSharesOutstanding acc date
  let lastKnownSharesBoughtBack := getLastKnownSharesBoughtBack acc date
  let issuedAtmShares :=
    match lastKnownSharesOutstanding with
    | some prev =>
      if prev.truthy then sharesOutstanding.sub prev else sharesOutstanding
    | none => sharesOutstanding
  let originalMetric := normalizedMetrics.find? (fun m => m.date = date)
  { companyId := companyId
    date := date
    weightedAvgBuyPrice := jsOrZero lastKnownAvgBuyPrice
    ethHoldings := ethHoldings
    avgBuyPrice := jsOrZero lastKnownAvgBuyPrice
    usdHoldings := lastKnownUsdHoldings
    stakingRewards := jsOrZero lastKnownStakingRewards
    sharesOutstanding := sharesOutstanding
    marketCap := (JsNum.fin lastKnownStockPrice).mul sharesOutstanding
    ethConcentration := ethConcentration
    issuedAtmShares := issuedAtmShares
    notes := (originalMetric.bind (·.notes)).getD ""
    sharesBoughtBack :=
      match lastKnownSharesBoughtBack with
      | some v => if v.truthy then v else .fin 0
      | none => .fin 0 }

/-- Loop state of `postFillMetrics`: the carried last known stock price and
the rows emitted so far. -/
structure FillState where
  lastKnownStockPrice : Option ℚ
  companyMetrics : List CompanyMetric
  deriving Repr

/-- One iteration of the `postFillMetrics` day loop: update the carried
stock price, then either skip the day (no price yet / no metric data yet /
no resolvable company id) or append the derived row. -/
def postFillStep (normalizedMetrics : List CompanyMetrics)
    (stockPrices : List StockPrice) (st : FillState) (date : Nat) :
    FillState :=
  let stockPriceAtClose :=
    (stockPrices.find? (fun p => p.date = date)).bind (·.close)
  let lastKnownStockPrice :=
    if truthyQ stockPriceAtClose then stockPriceAtClose
    else st.lastKnownStockPrice
  if ¬ truthyQ lastKnownStockPrice then
    ⟨lastKnownStockPrice, st.companyMetrics⟩
  else if ¬ hasAnyMetricData normalizedMetrics date then
    ⟨lastKnownStockPrice, st.companyMetrics⟩
  else
    let companyId := resolveCompanyId normalizedMetrics date
    if companyId = "" then ⟨lastKnownStockPrice, st.companyMetrics⟩
    else
      ⟨lastKnownStockPrice,
        st.companyMetrics ++
          [mkRow normalizedMetrics st.companyMetrics
            (jsOrZero lastKnownStockPrice) companyId date]⟩

/-- The enumerated days `startDate, startDate+1, …, today`.  The source
builds this with `differenceInDays(new Date(), start) + 1` (a `Math.ceil`,
so a partial current day still counts); `today` here is the index of the
last enumerated day.  The follow-up `>= startDate` filter is the identity
because `startDate` is already a midnight date. -/
def fillDates (startDate today : Nat) : List Nat :=
  if today < startDate then []
  else (List.range (today - startDate + 1)).map (startDate + ·)

/-- `postFillMetrics`: the series filler.  Dates arrive pre-normalized
(day indices), so the source's `normalizeDate` pass is the identity. -/
def postFillMetrics (metrics : List CompanyMetrics)
    (stockPrices : List StockPrice) (startDate today : Nat) :
    List CompanyMetric :=
  ((fillDates startDate today).foldl (postFillStep metrics stockPrices)
    ⟨none, []⟩).companyMetrics

/-- A NAV snapshot (`NavMetric` in `src/types/index.ts`).  `navPerShare` and
`mNav` are `JsNum` because the source divides by quantities it never checks
for zero or finiteness. -/
structure NavMetric where
  companyId : String
  date : Nat
  navPerShare : JsNum
  stockPrice : ℚ
  ethPrice : ℚ
  mNav : JsNum
  totalNavValue : ℚ
  deriving DecidableEq, Repr

/-- `calculateCurrentNAV` (`src/types/index.ts`), its pure core: the price
resolution, store reads and the `postFillMetrics` pipeline producing
`latestMetric` are performed by the caller here.  Guards in source order:
`!ethPrice || !stockPrice` returns `null`; then
`!ethHoldings || !sharesOutstanding || usdHoldings === undefined` returns
`null` (`usdHoldings` is a number field of the derived row, so the
`undefined` test is vacuous).  There is no guard on `totalNavValue`. -/
def calculateCurrentNAV (companyId : String) (today : Nat)
    (stockPrice ethPrice : ℚ) (latestMetric : CompanyMetric)
    (alternativeAssetsValue : ℚ) : Option NavMetric :=
  if ethPrice = 0 then none
  else if stockPrice = 0 then none
  else if latestMetric.ethHoldings = 0 then none
  else if ¬ latestMetric.sharesOutstanding.truthy then none
  else
    let ethMarketValue := latestMetric.ethHoldings * ethPrice
    let totalNavValue :=
      ethMarketValue + latestMetric.usdHoldings + alternativeAssetsValue
    let navPerShare :=
      jsDivN (.fin totalNavValue) latestMetric.sharesOutstanding
    let marketCap := (JsNum.fin stockPrice).mul latestMetric.sharesOutstanding
    let mNav := jsDivN marketCap (.fin totalNavValue)
    some
      { companyId := companyId
        date := today
        navPerShare := navPerShare
        stockPrice := stockPrice
        ethPrice := ethPrice
        mNav := mNav
        totalNavValue := totalNavValue }

/-- `calculateCurrentMnav` (`src/types/index.ts`):
`navResult?.mNav || null` — a falsy `mNav` (`0` or `NaN`) becomes `null`. -/
def calculateCurrentMnav (navResult : Option NavMetric) : Option JsNum :=
  match navResult with
  | none => none
  | some nav => if nav.mNav.truthy then some nav.mNav else none

/-- `MnavMonitorService.calculateCurrentMnav`
(`src/services/finnhub-websocket.ts`), its pure core over the fetched
latest metric row, latest close and ETH price.  Guards in source order:
missing/empty fetch results are the caller's concern, `!currentEthPrice`,
then `!latestStockPrice.close`, then the explicit `totalNavValue <= 0`
guard before dividing. -/
def wsCalculateCurrentMnav (latestMetric : CompanyMetrics)
    (close : Option ℚ) (currentEthPrice : ℚ) : Option ℚ :=
  if currentEthPrice = 0 then none
  else if ¬ truthyQ close then none
  else
    let marketCap := jsOrZero latestMetric.shares_outstanding * close.getD 0
    let totalNavValue :=
      jsOrZero latestMetric.eth_holdings * currentEthPrice +
        jsOrZero latestMetric.usd_holdings
    if totalNavValue ≤ 0 then none
    else some (marketCap / totalNavValue)

/-- An active alert rule row (`ActiveAlert` in `src/routes/mnav-monitor.ts`,
`MnavAlert` in `src/services/finnhub-websocket.ts`).  `last_triggered_at`
is a nullable millisecond timestamp. -/
structure ActiveAlert where
  id : String
  user_id : String := ""
  company_id : String
  threshold_value : ℚ
  alert_type : String
  is_active : Bool := true
  last_triggered_at : Option Int := none
  deriving DecidableEq, Repr

/-- `checkAlertCondition` (`src/routes/mnav-monitor.ts`): strict
inequalities, unknown alert types never fire. -/
def checkAlertCondition (currentMnav threshold : ℚ) (alertType : String) :
    Bool :=
  if alertType = "above" then currentMnav > threshold
  else if alertType = "below" then currentMnav < threshold
  else false

/-- `checkCooldownPeriod` (`src/routes/mnav-monitor.ts`): a null
`last_triggered_at` always passes; otherwise the last trigger must be
strictly older than `now - 6h` (times in milliseconds). -/
def checkCooldownPeriod (now : Int) (lastTriggered : Option Int) : Bool :=
  match lastTriggered with
  | none => true
  | some t => t < now - 6 * 60 * 60 * 1000

/-- A created notification row (`mnav_notifications` insert in
`src/routes/mnav-monitor.ts`). -/
structure MnavNotification where
  alert_id : String
  user_id : String
  company_id : String
  mnav_value : ℚ
  threshold_value : ℚ
  alert_type : String
  deriving DecidableEq, Repr

/-- The company ids in order of first appearance: the iteration order of
`Object.entries` over the `reduce`-built grouping object (string keys keep
insertion order; company ids are UUID strings, not integer-like keys). -/
def companiesInOrder (alerts : List ActiveAlert) : List String :=
  alerts.foldl
    (fun acc a =>
      if acc.contains a.company_id then acc else acc ++ [a.company_id])
    []

/-- `checkMnavThresholds` (`src/routes/mnav-monitor.ts`), its pure core on
the success path (every notification insert succeeds): the alert rows are
fetched by the caller, `mnavOf` stands for `calculateCurrentMnav` per
company (`none` = could not compute, whole group skipped).  Returns the
notification rows created during the invocation. -/
def checkMnavThresholds (now : Int) (mnavOf : String → Option ℚ)
    (alerts : List ActiveAlert) : List MnavNotification :=
  (companiesInOrder alerts).flatMap (fun companyId =>
    match mnavOf companyId with
    | none => []
    | some currentMnav =>
      (alerts.filter (fun a => a.company_id = companyId)).filterMap
        (fun alert =>
          if checkAlertCondition currentMnav alert.threshold_value
              alert.alert_type &&
             checkCooldownPeriod now alert.last_triggered_at then
            some
              { alert_id := alert.id
                user_id := alert.user_id
                company_id := alert.company_id
                mnav_value := currentMnav
                threshold_value := alert.threshold_value
                alert_type := alert.alert_type }
          else none))

/-- `MnavMonitorService.shouldTriggerAlert`
(`src/services/finnhub-websocket.ts`): inside the 6-hour cooldown window
(`now < lastTriggered + 6h`, milliseconds) never trigger; otherwise strict
threshold comparison. -/
def shouldTriggerAlert (now : Int) (alert : ActiveAlert) (currentMnav : ℚ) :
    Bool :=
  if (match alert.last_triggered_at with
      | some t => decide (now < t + 6 * 60 * 60 * 1000)
      | none => false) then
    false
  else if alert.alert_type = "below" then
    currentMnav < alert.threshold_value
  else if alert.alert_type = "above" then
    currentMnav > alert.threshold_value
  else false

/-- `MnavMonitorService.recordTriggeredAlert`
(`src/services/finnhub-websocket.ts`), with the outcome of each store
write made explicit: if the notification insert fails, the function
returns `null` before ever attempting the `last_triggered_at` update; if
the insert succeeds, the update is attempted (its own failure is only
logged, the notification id is still returned).  Result: the returned
notification id and the alert row's `last_triggered_at` afterwards. -/
def recordTriggeredAlert (insertOk updateOk : Bool) (notifId : String)
    (now : Int) (alert : ActiveAlert) : Option String × Option Int :=
  if ¬ insertOk then (none, alert.last_triggered_at)
  else if updateOk then (some notifId, some now)
  else (some notifId, alert.last_triggered_at)

/-- The per-alert trigger body of `checkMnavThresholds`
(`src/routes/mnav-monitor.ts` lines 106–137): on a notification insert
error the loop `continue`s without touching `last_triggered_at`; on
success the update to `now` follows.  Result: whether a notification was
created, and the alert row's `last_triggered_at` afterwards. -/
def monitorTriggerStep (insertOk : Bool) (now : Int) (alert : ActiveAlert) :
    Bool × Option Int :=
  if ¬ insertOk then (false, alert.last_triggered_at)
  else (true, some now)

/-- Disclosure list of the forward-fill scenario: day 1 has
`eth_holdings = 100` and `eth_concentration = 500`, day 5 has
`eth_holdings = 150`. -/
def forwardFillDisclosures : List CompanyMetrics :=
  [{ company_id := "c", date := 1, eth_holdings := some 100,
     eth_concentration := some 500 },
   { company_id := "c", date := 5, eth_holdings := some 150 }]

/-- Price list of the forward-fill scenario: a single close on day 1. -/
def forwardFillPrices : List StockPrice :=
  [{ company_id := "c", date := 1, close := some 10 }]

/-- Fixed latest metric of the NAV round-trip scenario:
`ethHoldings = 1000`, `usdHoldings = 500000`, `sharesOutstanding = 10000`. -/
def navRoundTripMetric : CompanyMetric :=
  { companyId := "c", date := 0, weightedAvgBuyPrice := 0, ethHoldings := 1000,
    avgBuyPrice := 0, usdHoldings := 500000, stakingRewards := 0,
    sharesOutstanding := .fin 10000, marketCap := .fin 0,
    ethConcentration := 0, issuedAtmShares := .fin 0, notes := "",
    sharesBoughtBack := .fin 0 }

/-- Claim C1.  A disclosure that carries only `usd_holdings` (day 0) plus a
price on day 0 makes `postFillMetrics` emit a row whose resolved
`ethConcentration` is `0` and whose `sharesOutstanding` is `NaN`
(`0 / (0 / 1000)`): the zero-concentration day is not treated as a
derivation failure and is not omitted. -/
theorem zero_concentration_row_emitted :
    (postFillMetrics
        [{ company_id := "c", date := 0, usd_holdings := some 5 }]
        [{ company_id := "c", date := 0, close := some 10 }] 0 0).map
      (fun r => (r.ethConcentration, r.sharesOutstanding))
      = [(0, JsNum.nan)] := by
  norm_num [postFillMetrics, fillDates, postFillStep, mkRow,
    getLastKnownEthHoldings, getLastKnownUsdHoldings, getLastKnownAvgBuyPrice,
    getLastKnownStakingRewards, getLastKnownEthConcentration,
    getLastKnownSharesOutstanding, getLastKnownSharesBoughtBack,
    latestTruthyBefore, latestUsdBefore, latestRowBefore,
    hasAnyMetricData, resolveCompanyId, truthyQ, usdHoldingsExist,
    jsOrZero, jsDivQ, JsNum.mul, JsNum.truthy, List.range_succ]
  simp

/-- Claim C3.  Forward-fill correctness on the documented scenario:
with disclosures only on day 1 (`eth_holdings = 100`,
`eth_concentration = 500`) and day 5 (`eth_holdings = 150`) and a price on
day 1, every emitted row on days 2–4 resolves `ethHoldings = 100` and every
emitted row from day 5 on resolves `ethHoldings = 150`. -/
theorem forward_fill_correctness :
    ((postFillMetrics forwardFillDisclosures forwardFillPrices 1 8).all
      (fun r =>
        decide ((2 ≤ r.date ∧ r.date ≤ 4 → r.ethHoldings = 100) ∧
          (5 ≤ r.date → r.ethHoldings = 150)))) = true := by
  norm_num [postFillMetrics, forwardFillDisclosures, forwardFillPrices,
    fillDates, postFillStep, mkRow,
    getLastKnownEthHoldings, getLastKnownUsdHoldings, getLastKnownAvgBuyPrice,
    getLastKnownStakingRewards, getLastKnownEthConcentration,
    getLastKnownSharesOutstanding, getLastKnownSharesBoughtBack,
    latestTruthyBefore, latestUsdBefore, latestRowBefore,
    hasAnyMetricData, resolveCompanyId, truthyQ, usdHoldingsExist,
    jsOrZero, jsDivQ, JsNum.mul, JsNum.sub, JsNum.truthy, List.range_succ,
    show ("c" = "") = False by simp]

/-- Claim C5.  Threshold boundary: both the route helper
`checkAlertCondition` and the monitor service's `shouldTriggerAlert` use
strict inequalities, so a measured mNAV exactly equal to the threshold
never fires, for any alert type, any rule and any invocation time. -/
theorem threshold_boundary (t : ℚ) (ty : String) (now : Int)
    (a : ActiveAlert) :
    checkAlertCondition t t ty = false ∧
    shouldTriggerAlert now a a.threshold_value = false := by
  constructor
  · unfold checkAlertCondition
    split_ifs <;> simp
  · unfold shouldTriggerAlert
    split_ifs <;> simp

/-- Claim C7.  Trigger-path atomicity: in both trigger paths
(`recordTriggeredAlert` in the monitor service and the per-alert body of
`checkMnavThresholds` in the route), a failed notification insert leaves
`last_triggered_at` unchanged and produces no notification, and
`last_triggered_at` is set to `now` only when the insert succeeded (in the
service additionally only when the update write itself succeeds). -/
theorem trigger_path_atomicity (insertOk updateOk : Bool) (notifId : String)
    (now : Int) (alert alert2 : ActiveAlert) :
    recordTriggeredAlert false updateOk notifId now alert
      = (none, alert.last_triggered_at) ∧
    monitorTriggerStep false now alert2 = (false, alert2.last_triggered_at) ∧
    (recordTriggeredAlert insertOk updateOk notifId now alert).2
      = (if insertOk && updateOk then some now else alert.last_triggered_at) ∧
    (monitorTriggerStep insertOk now alert2).2
      = (if insertOk then some now else alert2.last_triggered_at) := by
  cases insertOk <;> cases updateOk <;>
    simp [recordTriggeredAlert, monitorTriggerStep]

/-- Falsifies claim C8 as stated: on the fixed inputs the NAV computation
returns `totalNavValue = 2500000` (namely `1000 * 2000 + 500000 + 0`), not
the claimed `2500500`. -/
theorem nav_round_trip_deviation :
    ((calculateCurrentNAV "c" 0 250 2000 navRoundTripMetric 0).map
        (fun nav => nav.totalNavValue)) = some 2500000 ∧
    (2500000 : ℚ) ≠ 2500500 := by
  norm_num [calculateCurrentNAV, navRoundTripMetric, JsNum.truthy]

/-- Claim C8 (amended).  NAV round-trip on the fixed inputs
`ethHoldings = 1000`, `ethPrice = 2000`, `usdHoldings = 500000`,
`alternativeAssetsValue = 0`, `sharesOutstanding = 10000`,
`stockPrice = 250`: the computation yields `totalNavValue = 2500000`,
`navPerShare = 250`, `mNav = 1`, and the internal market cap
`stockPrice * sharesOutstanding` is `2500000`. -/
theorem nav_round_trip :
    ((calculateCurrentNAV "c" 0 250 2000 navRoundTripMetric 0).map
        (fun nav => (nav.totalNavValue, nav.navPerShare, nav.mNav)))
      = some (2500000, JsNum.fin 250, JsNum.fin 1) ∧
    (JsNum.fin 250).mul navRoundTripMetric.sharesOutstanding
      = JsNum.fin 2500000 := by
  norm_num [calculateCurrentNAV, navRoundTripMetric, JsNum.truthy,
    JsNum.mul, jsDivN, jsDivQ]

/-- Claim C2.  Cooldown idempotence: a rule that fired at `t0` (its
`last_triggered_at` is `t0`) creates zero notifications when the monitor
runs one hour later with the same qualifying mNAV, and exactly one when it
runs seven hours later (cooldown six hours); a rule with a null
`last_triggered_at` always passes the cooldown check. -/
theorem cooldown_idempotence (r : ActiveAlert) (t0 : Int) (m : ℚ)
    (hlast : r.last_triggered_at = some t0)
    (hqual : checkAlertCondition m r.threshold_value r.alert_type = true) :
    (checkMnavThresholds (t0 + 3600000) (fun _ => some m) [r]).length = 0 ∧
    (checkMnavThresholds (t0 + 25200000) (fun _ => some m) [r]).length = 1 ∧
    checkCooldownPeriod (t0 + 3600000) none = true := by
  have h1 : checkCooldownPeriod (t0 + 3600000) r.last_triggered_at = false := by
    simp only [checkCooldownPeriod, hlast, decide_eq_false_iff_not]
    omega
  have h2 : checkCooldownPeriod (t0 + 25200000) r.last_triggered_at = true := by
    simp only [checkCooldownPeriod, hlast, decide_eq_true_eq]
    omega
  refine ⟨?_, ?_, rfl⟩
  · simp [checkMnavThresholds, companiesInOrder, h1, hqual]
  · simp [checkMnavThresholds, companiesInOrder, h2, hqual]

/-- Witness for claim C2 at a concrete rule: threshold 1, direction
`above`, last triggered at time 0, measured mNAV 2. -/
theorem cooldown_idempotence_witness :
    (checkMnavThresholds 3600000 (fun _ => some 2)
        [{ id := "a1", company_id := "c", threshold_value := 1,
           alert_type := "above", last_triggered_at := some 0 }]).length
      = 0 ∧
    (checkMnavThresholds 25200000 (fun _ => some 2)
        [{ id := "a1", company_id := "c", threshold_value := 1,
           alert_type := "above", last_triggered_at := some 0 }]).length
      = 1 ∧
    checkCooldownPeriod 3600000 none = true :=
  cooldown_idempotence
    { id := "a1", company_id := "c", threshold_value := 1,
      alert_type := "above", last_triggered_at := some 0 } 0 2 rfl
    (by decide)

/-- Rows built by `mkRow` satisfy the derived-share equation by
construction: the emitted `sharesOutstanding` is the JS division of the
row's own resolved `ethHoldings` by its resolved `ethConcentration / 1000`. -/
theorem mkRow_sharesOutstanding_eq (nm : List CompanyMetrics)
    (acc : List CompanyMetric) (price : ℚ) (cid : String) (d : Nat) :
    (mkRow nm acc price cid d).sharesOutstanding =
      jsDivQ (mkRow nm acc price cid d).ethHoldings
        ((mkRow nm acc price cid d).ethConcentration / 1000) := rfl

/-- One filler step either keeps the emitted rows unchanged or appends a
single row built by `mkRow` for the processed day. -/
theorem postFillStep_mem (nm : List CompanyMetrics) (sp : List StockPrice)
    (st : FillState) (d : Nat) (r : CompanyMetric)
    (h : r ∈ (postFillStep nm sp st d).companyMetrics) :
    r ∈ st.companyMetrics ∨
      ∃ price cid, r = mkRow nm st.companyMetrics price cid d := by
  simp only [postFillStep] at h
  repeat' split at h
  all_goals
    first
      | exact Or.inl h
      | (rcases List.mem_append.mp h with h' | h'
         · exact Or.inl h'
         · exact Or.inr ⟨_, _, List.mem_singleton.mp h'⟩)

/-- Every row in the final fold state is an initial row or a row built by
`mkRow` for some processed day. -/
theorem postFill_foldl_mem (nm : List CompanyMetrics) (sp : List StockPrice)
    (dates : List Nat) :
    ∀ (st : FillState) (r : CompanyMetric),
      r ∈ (dates.foldl (postFillStep nm sp) st).companyMetrics →
      r ∈ st.companyMetrics ∨
        ∃ acc price cid d, r = mkRow nm acc price cid d := by
  induction dates with
  | nil => exact fun st r h => Or.inl h
  | cons d ds ih =>
    intro st r h
    simp only [List.foldl_cons] at h
    rcases ih (postFillStep nm sp st d) r h with h' | h'
    · rcases postFillStep_mem nm sp st d r h' with h'' | ⟨price, cid, h''⟩
      · exact Or.inl h''
      · exact Or.inr ⟨st.companyMetrics, price, cid, d, h''⟩
    · exact Or.inr h'

/-- Claim C4.  Derived-share invariant: every row emitted by
`postFillMetrics` satisfies
`sharesOutstanding = ethHoldings / (ethConcentration / 1000)` (JS
division), where `ethHoldings` and `ethConcentration` are the row's own
resolved forward-filled values — exact in ℚ, and the non-finite results of
a zero concentration agree on both sides as well. -/
theorem derived_share_invariant (metrics : List CompanyMetrics)
    (stockPrices : List StockPrice) (startDate today : Nat) :
    ∀ r ∈ postFillMetrics metrics stockPrices startDate today,
      r.sharesOutstanding = jsDivQ r.ethHoldings (r.ethConcentration / 1000) := by
  intro r hr
  unfold postFillMetrics at hr
  rcases postFill_foldl_mem metrics stockPrices
      (fillDates startDate today) ⟨none, []⟩ r hr with h | ⟨acc, price, cid, d, rfl⟩
  · simp at h
  · exact mkRow_sharesOutstanding_eq metrics acc price cid d

/-- Witness for claim C4 at a concrete run: one disclosure on day 0 with
holdings 1 and concentration 1000, one price on day 0. -/
theorem derived_share_invariant_witness :
    (⟨"c", 0, 0, 1, 0, 0, 0, .fin 1, .fin 10, 1000, .fin 1, "", .fin 0⟩ :
        CompanyMetric).sharesOutstanding =
      jsDivQ
        (⟨"c", 0, 0, 1, 0, 0, 0, .fin 1, .fin 10, 1000, .fin 1, "",
          .fin 0⟩ : CompanyMetric).ethHoldings
        ((⟨"c", 0, 0, 1, 0, 0, 0, .fin 1, .fin 10, 1000, .fin 1, "",
          .fin 0⟩ : CompanyMetric).ethConcentration / 1000) :=
  derived_share_invariant
    [{ company_id := "c", date := 0, eth_holdings := some 1,
       eth_concentration := some 1000 }]
    [{ company_id := "c", date := 0, close := some 10 }] 0 0 _
    (by
      norm_num [postFillMetrics, fillDates, postFillStep, mkRow,
        getLastKnownEthHoldings, getLastKnownUsdHoldings,
        getLastKnownAvgBuyPrice, getLastKnownStakingRewards,
        getLastKnownEthConcentration, getLastKnownSharesOutstanding,
        getLastKnownSharesBoughtBack, latestTruthyBefore, latestUsdBefore,
        latestRowBefore, hasAnyMetricData, resolveCompanyId, truthyQ,
        usdHoldingsExist, jsOrZero, jsDivQ, JsNum.mul, JsNum.truthy,
        List.range_succ, show ("c" = "") = False by simp])

/-- Falsifies claim C6 as stated: with latest holdings 1, live asset price
1, cash `-10` and live equity price 5, `totalNavValue` is `-9 < 0`, yet
`calculateCurrentNAV` returns a snapshot (not a failure) whose `mNav` is
the silently negative ratio `-500/9`. -/
theorem invalid_nav_not_guarded :
    ((calculateCurrentNAV "c" 0 5 1
        ⟨"c", 0, 0, 1, 0, -10, 0, .fin 100, .fin 0, 0, .fin 0, "", .fin 0⟩
        0).map (fun nav => (nav.totalNavValue, nav.mNav)))
      = some (-9, JsNum.fin (-500 / 9)) ∧
    (-9 : ℚ) < 0 ∧ (-500 / 9 : ℚ) < 0 := by
  norm_num [calculateCurrentNAV, JsNum.truthy, JsNum.mul, jsDivN, jsDivQ]

/-- Claim C6 (amended).  The zero-or-negative-NAV guard holds in the
monitor service's NAV computation: whenever the computed `totalNavValue`
is `≤ 0`, `MnavMonitorService.calculateCurrentMnav` fails (returns
`null`) for every input; `calculateCurrentNAV` in `types/index.ts` has no
such guard (see the counterexample). -/
theorem invalid_nav_guard (m : CompanyMetrics) (close : Option ℚ)
    (ethPrice : ℚ)
    (h : jsOrZero m.eth_holdings * ethPrice + jsOrZero m.usd_holdings ≤ 0) :
    wsCalculateCurrentMnav m close ethPrice = none := by
  simp only [wsCalculateCurrentMnav]
  split_ifs <;> simp_all

/-- Witness for claim C6 (amended): a metric row with no holdings fields
gives `totalNavValue = 0 ≤ 0` and the monitor service returns `null`. -/
theorem invalid_nav_guard_witness :
    (jsOrZero (none : Option ℚ) * 1 + jsOrZero (none : Option ℚ) ≤ 0) ∧
    wsCalculateCurrentMnav { company_id := "c", date := 0 } (some 1) 1
      = none :=
  ⟨by norm_num [jsOrZero, truthyQ],
   invalid_nav_guard _ _ _ (by norm_num [jsOrZero, truthyQ])⟩

/-- Claim C9.  Zero-handling asymmetry: with a disclosure of `v ≠ 0` on
day 0 and a disclosed `0` on day 1, the four truthiness-filled getters
(`eth_holdings`, `avg_buy_price`, `staking_rewards`, `eth_concentration`)
skip the `0` and forward-fill `v`, while `getLastKnownUsdHoldings` treats
the disclosed `0` as present and returns it; and in the NAV computation a
zero `ethHoldings` or a zero `sharesOutstanding` makes
`calculateCurrentNAV` fail, while a zero `usdHoldings` is accepted. -/
theorem zero_absent_asymmetry (v : ℚ) (hv : v ≠ 0) (cid : String)
    (today : Nat) (sp ep alt : ℚ) (m1 m2 : CompanyMetric)
    (h1 : m1.ethHoldings = 0) (h2 : m2.sharesOutstanding = .fin 0) :
    getLastKnownEthHoldings
        [{ company_id := "c", date := 0, eth_holdings := some v },
         { company_id := "c", date := 1, eth_holdings := some 0 }] 1
      = some v ∧
    getLastKnownAvgBuyPrice
        [{ company_id := "c", date := 0, avg_buy_price := some v },
         { company_id := "c", date := 1, avg_buy_price := some 0 }] 1
      = some v ∧
    getLastKnownStakingRewards
        [{ company_id := "c", date := 0, staking_rewards := some v },
         { company_id := "c", date := 1, staking_rewards := some 0 }] 1
      = some v ∧
    getLastKnownEthConcentration
        [{ company_id := "c", date := 0, eth_concentration := some v },
         { company_id := "c", date := 1, eth_concentration := some 0 }] 1
      = some v ∧
    getLastKnownUsdHoldings
        [{ company_id := "c", date := 0, usd_holdings := some v },
         { company_id := "c", date := 1, usd_holdings := some 0 }] 1 = 0 ∧
    calculateCurrentNAV cid today sp ep m1 alt = none ∧
    calculateCurrentNAV cid today sp ep m2 alt = none ∧
    calculateCurrentNAV "c" 0 1 1
        ⟨"c", 0, 0, 1, 0, 0, 0, .fin 1, .fin 1, 1000, .fin 1, "", .fin 0⟩ 0
      ≠ none := by
  refine ⟨?_, ?_, ?_, ?_, ?_, ?_, ?_, ?_⟩
  · simp [getLastKnownEthHoldings, latestTruthyBefore, truthyQ, hv]
  · simp [getLastKnownAvgBuyPrice, latestTruthyBefore, truthyQ, hv]
  · simp [getLastKnownStakingRewards, latestTruthyBefore, truthyQ, hv]
  · simp [getLastKnownEthConcentration, latestTruthyBefore, truthyQ, hv]
  · simp [getLastKnownUsdHoldings, latestUsdBefore, usdHoldingsExist]
  · simp only [calculateCurrentNAV]
    split_ifs <;> simp_all
  · simp only [calculateCurrentNAV]
    split_ifs <;> simp_all [JsNum.truthy]
  · norm_num [calculateCurrentNAV, JsNum.truthy]
    simp

/-- Witness for claim C9 at `v = 100` and concrete metric rows (one with
zero holdings, one with zero derived shares). -/
theorem zero_absent_asymmetry_witness :
    getLastKnownEthHoldings
        [{ company_id := "c", date := 0, eth_holdings := some 100 },
         { company_id := "c", date := 1, eth_holdings := some 0 }] 1
      = some 100 ∧
    getLastKnownAvgBuyPrice
        [{ company_id := "c", date := 0, avg_buy_price := some 100 },
         { company_id := "c", date := 1, avg_buy_price := some 0 }] 1
      = some 100 ∧
    getLastKnownStakingRewards
        [{ company_id := "c", date := 0, staking_rewards := some 100 },
         { company_id := "c", date := 1, staking_rewards := some 0 }] 1
      = some 100 ∧
    getLastKnownEthConcentration
        [{ company_id := "c", date := 0, eth_concentration := some 100 },
         { company_id := "c", date := 1, eth_concentration := some 0 }] 1
      = some 100 ∧
    getLastKnownUsdHoldings
        [{ company_id := "c", date := 0, usd_holdings := some 100 },
         { company_id := "c", date := 1, usd_holdings := some 0 }] 1 = 0 ∧
    calculateCurrentNAV "x" 0 1 1
        ⟨"m", 0, 0, 0, 0, 0, 0, .fin 1, .fin 0, 0, .fin 0, "", .fin 0⟩ 0
      = none ∧
    calculateCurrentNAV "x" 0 1 1
        ⟨"m", 0, 0, 1, 0, 0, 0, .fin 0, .fin 0, 0, .fin 0, "", .fin 0⟩ 0
      = none ∧
    calculateCurrentNAV "c" 0 1 1
        ⟨"c", 0, 0, 1, 0, 0, 0, .fin 1, .fin 1, 1000, .fin 1, "", .fin 0⟩ 0
      ≠ none :=
  zero_absent_asymmetry 100 (by decide) "x" 0 1 1 0
    ⟨"m", 0, 0, 0, 0, 0, 0, .fin 1, .fin 0, 0, .fin 0, "", .fin 0⟩
    ⟨"m", 0, 0, 1, 0, 0, 0, .fin 0, .fin 0, 0, .fin 0, "", .fin 0⟩
    rfl rfl

/-- Falsifies claim C10 as stated: with latest holdings 1, cash `-1`,
shares 100, live asset price 1 and live equity price 250, the returned
snapshot has `totalNavValue = 0`, so `mNav = Infinity`, `navPerShare = 0`,
and `mNav × navPerShare` is `NaN`, not the stock price 250. -/
theorem mnav_navpershare_product_counterexample :
    ((calculateCurrentNAV "c" 0 250 1
        ⟨"c", 0, 0, 1, 0, -1, 0, .fin 100, .fin 0, 0, .fin 0, "", .fin 0⟩
        0).map (fun nav => nav.mNav.mul nav.navPerShare))
      = some JsNum.nan ∧ JsNum.nan ≠ JsNum.fin 250 := by
  refine ⟨?_, by simp⟩
  norm_num [calculateCurrentNAV, JsNum.truthy, JsNum.mul, jsDivN, jsDivQ]

/-- Claim C10 (amended).  Algebraic invariant of the NAV computation on
the non-degenerate domain: whenever `calculateCurrentNAV` returns a
snapshot, the latest metric's `sharesOutstanding` is a finite `s`, and the
total NAV `ethHoldings * ethPrice + usdHoldings + alternativeAssetsValue`
is non-zero, the snapshot satisfies `mNav × navPerShare = stockPrice`
exactly in ℚ (the shared `sharesOutstanding` factor of `marketCap` and
`navPerShare` cancels); with an infinite share count or a zero total NAV
the product degenerates to `NaN` (see the counterexample). -/
theorem mnav_navpershare_product (cid : String) (today : Nat)
    (sp ep alt : ℚ) (m : CompanyMetric) (s : ℚ) (nav : NavMetric)
    (hs : m.sharesOutstanding = .fin s)
    (ht : m.ethHoldings * ep + m.usdHoldings + alt ≠ 0)
    (h : calculateCurrentNAV cid today sp ep m alt = some nav) :
    nav.mNav.mul nav.navPerShare = .fin sp := by
  simp only [calculateCurrentNAV] at h
  split_ifs at h with g1 g2 g3 g4
  have htr : m.sharesOutstanding.truthy = true := by
    revert g4
    cases m.sharesOutstanding.truthy <;> simp
  rw [hs] at htr
  have hs' : s ≠ 0 := by simpa [JsNum.truthy] using htr
  rw [hs] at h
  obtain rfl : nav = _ := (Option.some.inj h).symm
  show (jsDivN ((JsNum.fin sp).mul (.fin s))
      (.fin (m.ethHoldings * ep + m.usdHoldings + alt))).mul
      (jsDivN (.fin (m.ethHoldings * ep + m.usdHoldings + alt)) (.fin s))
    = .fin sp
  simp only [jsDivN, JsNum.mul, jsDivQ, if_pos ht, if_pos hs',
    ne_eq, not_false_eq_true, ite_true]
  congr 1
  field_simp

/-- Witness for claim C10 (amended) at a concrete run: holdings 1, cash 0,
one share, asset price 1, equity price 250. -/
theorem mnav_navpershare_product_witness :
    ((⟨"c", 0, .fin 1, 250, 1, .fin 250, 1⟩ : NavMetric).mNav).mul
      (⟨"c", 0, .fin 1, 250, 1, .fin 250, 1⟩ : NavMetric).navPerShare
      = .fin 250 :=
  mnav_navpershare_product "c" 0 250 1 0
    ⟨"c", 0, 0, 1, 0, 0, 0, .fin 1, .fin 0, 0, .fin 0, "", .fin 0⟩ 1
    ⟨"c", 0, .fin 1, 250, 1, .fin 250, 1⟩ rfl (by norm_num)
    (by norm_num [calculateCurrentNAV, JsNum.truthy, jsDivN, jsDivQ,
      JsNum.mul])

end Rockboards
